import Mathlib

/-!
Verification of the nested-transaction core of `app/sql` (ScopedTransaction /
TransactionNestingState layered over a single-level database engine).

The repository ships only the unit test `app/sql/transaction_unittest.cc`;
the implementation files (`app/sql/transaction.cc`, `app/sql/connection.cc`)
are not in the source tree, so the transaction logic below is modelled from
the specification's description of Begin/Commit/Rollback and the nesting
state, and checked against the behaviour the unit test asserts.
-/

/-- The three literal statement texts this core ever sends to the engine. -/
inductive Stmt where
  | BEGIN
  | COMMIT
  | ROLLBACK
deriving DecidableEq, Repr

/-- Modelled from the spec: the connection (`sql::Connection`, whose
implementation is missing from the source tree) holds the
TransactionNestingState — `nesting_depth` and the `must_rollback` poison
flag — plus the engine collaborator's observable state: whether an engine
transaction is active, the committed and currently visible row counts of
table `foo` (the table the unit test queries with `CountFoo`), and the
trace of statement texts issued to the engine. -/
structure Connection where
  nesting_depth : Nat
  must_rollback : Bool
  in_transaction : Bool
  rows_committed : Nat
  rows_visible : Nat
  trace : List Stmt
deriving DecidableEq, Repr

/-- The test observable `db().transaction_nesting()`. -/
def Connection.transaction_nesting (c : Connection) : Nat :=
  c.nesting_depth

/-- Modelled from the spec: `enter()` increments `nesting_depth` and
returns the new depth. -/
def Connection.enter (c : Connection) : Connection × Nat :=
  ({ c with nesting_depth := c.nesting_depth + 1 }, c.nesting_depth + 1)

/-- Modelled from the spec: `leave()` decrements `nesting_depth` (never
below 0) and returns the new depth. -/
def Connection.leave (c : Connection) : Connection × Nat :=
  ({ c with nesting_depth := c.nesting_depth - 1 }, c.nesting_depth - 1)

/-- Modelled from the spec: `poison()` sets `must_rollback`. -/
def Connection.poison (c : Connection) : Connection :=
  { c with must_rollback := true }

/-- Modelled from the spec: `is_poisoned()`. -/
def Connection.is_poisoned (c : Connection) : Bool :=
  c.must_rollback

/-- Modelled from the spec: `clear_poison()` resets `must_rollback`. -/
def Connection.clear_poison (c : Connection) : Connection :=
  { c with must_rollback := false }

/-- Modelled from the spec: the engine collaborator's
`execute(sql_text) -> success|failure` for the three transaction-control
texts. The statement is recorded in the trace; on success the engine
updates its single-level transaction state: `BEGIN` opens the engine
transaction, `COMMIT` makes the visible rows durable, `ROLLBACK` discards
visible changes back to the committed rows. -/
def Connection.execStmt (c : Connection) (s : Stmt) (ok : Bool) : Connection :=
  let c := { c with trace := c.trace ++ [s] }
  if ok then
    match s with
    | Stmt.BEGIN => { c with in_transaction := true }
    | Stmt.COMMIT => { c with in_transaction := false, rows_committed := c.rows_visible }
    | Stmt.ROLLBACK => { c with in_transaction := false, rows_visible := c.rows_committed }
  else c

/-- The test's `INSERT INTO foo ...`: one more visible row; outside an
engine transaction the row is durable immediately. -/
def Connection.execInsert (c : Connection) : Connection :=
  if c.in_transaction then
    { c with rows_visible := c.rows_visible + 1 }
  else
    { c with rows_visible := c.rows_visible + 1, rows_committed := c.rows_committed + 1 }

/-- The test helper `CountFoo()`: the number of rows currently visible in
table `foo`. -/
def CountFoo (c : Connection) : Nat :=
  c.rows_visible

/-- Modelled from the spec: the connection-level Begin logic behind
`ScopedTransaction::Begin` (implementation missing from the source tree).
If poisoned, fail immediately without touching the depth counter and
without issuing a statement. Otherwise `enter()`; if the new depth is 1
issue the real engine `BEGIN` (`engineOk` is that statement's outcome) and
on failure undo the speculative enter via `leave()`; at depth > 1 no
statement is issued. Returns the new connection state and success. -/
def Connection.beginTransaction (c : Connection) (engineOk : Bool) :
    Connection × Bool :=
  if c.is_poisoned then
    (c, false)
  else
    let (c1, d) := c.enter
    if d = 1 then
      let c2 := c1.execStmt Stmt.BEGIN engineOk
      if engineOk then (c2, true) else ((c2.leave).1, false)
    else
      (c1, true)

/-- Modelled from the spec: the connection-level Commit logic behind
`ScopedTransaction::Commit` (implementation missing from the source tree).
`leave()`; if the new depth is 0 and the state is poisoned, issue a real
`ROLLBACK` instead of `COMMIT` and `clear_poison()`, reporting failure;
if the new depth is 0 and not poisoned, issue a real `COMMIT`; at new
depth > 0 no statement is issued. -/
def Connection.commitTransaction (c : Connection) : Connection × Bool :=
  let (c1, d) := c.leave
  if d = 0 then
    if c1.is_poisoned then
      (((c1.execStmt Stmt.ROLLBACK true).clear_poison), false)
    else
      (c1.execStmt Stmt.COMMIT true, true)
  else
    (c1, true)

/-- Modelled from the spec: the connection-level Rollback logic behind
`ScopedTransaction::Rollback` (implementation missing from the source
tree). `poison()` unconditionally, then `leave()`; if the new depth is 0
issue the real `ROLLBACK` and `clear_poison()`. -/
def Connection.rollbackTransaction (c : Connection) : Connection :=
  let (c1, d) := (c.poison).leave
  if d = 0 then
    (c1.execStmt Stmt.ROLLBACK true).clear_poison
  else
    c1

/-- Modelled from the spec: the caller-visible handle `sql::Transaction`
(ScopedTransaction), whose implementation is missing from the source tree:
just the `is_open` flag next to the borrowed connection. -/
structure Transaction where
  is_open : Bool
deriving DecidableEq, Repr

/-- A freshly constructed handle: not open. -/
def Transaction.new : Transaction :=
  { is_open := false }

/-- Modelled from the spec: `Transaction::Begin` on a handle (precondition:
not already open). On success the handle becomes open. -/
def Transaction.Begin (_t : Transaction) (c : Connection) (engineOk : Bool) :
    Transaction × Connection × Bool :=
  let (c1, ok) := c.beginTransaction engineOk
  ({ is_open := ok }, c1, ok)

/-- Modelled from the spec: `Transaction::Commit` (precondition: open).
The handle is closed regardless of the engine outcome. -/
def Transaction.Commit (_t : Transaction) (c : Connection) :
    Transaction × Connection × Bool :=
  let (c1, ok) := c.commitTransaction
  ({ is_open := false }, c1, ok)

/-- Modelled from the spec: `Transaction::Rollback` (precondition: open). -/
def Transaction.Rollback (_t : Transaction) (c : Connection) :
    Transaction × Connection :=
  ({ is_open := false }, c.rollbackTransaction)

/-- Modelled from the spec: the handle's destructor — if the handle is
still open its teardown runs the rollback logic, otherwise it does
nothing. -/
def Transaction.destroy (t : Transaction) (c : Connection) : Connection :=
  if t.is_open then c.rollbackTransaction else c

/-- One connection-level step of a client sequence: a Begin on a fresh
handle (with the engine outcome of a `BEGIN` statement, should one be
issued), a Commit or an explicit Rollback on an open handle, destruction
of an open handle (which runs the rollback logic), destruction of a
closed handle (a no-op), or executing the test's insert statement. -/
inductive Op where
  | opBegin (engineOk : Bool)
  | opCommit
  | opRollback
  | opDestroyOpen
  | opDestroyClosed
  | opInsert
deriving DecidableEq, Repr

/-- Apply one step to the connection. -/
def applyOp (c : Connection) : Op → Connection
  | Op.opBegin e => (c.beginTransaction e).1
  | Op.opCommit => (c.commitTransaction).1
  | Op.opRollback => c.rollbackTransaction
  | Op.opDestroyOpen => c.rollbackTransaction
  | Op.opDestroyClosed => c
  | Op.opInsert => c.execInsert

/-- A step is valid when its handle-level precondition can hold: Commit,
Rollback and open-handle destruction need an open handle, and the number
of open handles on the connection is exactly `nesting_depth`. -/
def validOp (c : Connection) : Op → Bool
  | Op.opCommit => decide (0 < c.nesting_depth)
  | Op.opRollback => decide (0 < c.nesting_depth)
  | Op.opDestroyOpen => decide (0 < c.nesting_depth)
  | _ => true

/-- A sequence of steps, each valid in the state it runs from. -/
def validSeq (c : Connection) : List Op → Bool
  | [] => true
  | op :: ops => validOp c op && validSeq (applyOp c op) ops

/-- Run a sequence of steps. -/
def run (c : Connection) : List Op → Connection
  | [] => c
  | op :: ops => run (applyOp c op) ops

/-- The state the unit test starts from: no open transaction, table `foo`
freshly created and empty, nothing issued to the engine. -/
def connInit : Connection :=
  { nesting_depth := 0
    must_rollback := false
    in_transaction := false
    rows_committed := 0
    rows_visible := 0
    trace := [] }

/-- The `NestedRollback` unit-test scenario as a step sequence: outer
Begin; first inner Begin, insert, Commit; second inner Begin, insert,
Rollback; third inner Begin (fails while poisoned); third handle
destroyed closed; outer handle destroyed open at scope exit. -/
def nestedRollbackOps : List Op :=
  [Op.opBegin true,
   Op.opBegin true,
   Op.opInsert,
   Op.opCommit,
   Op.opBegin true,
   Op.opInsert,
   Op.opRollback,
   Op.opBegin true,
   Op.opDestroyClosed,
   Op.opDestroyOpen]

/-! ## General facts about runs -/

theorem run_cons (c : Connection) (op : Op) (ops : List Op) :
    run c (op :: ops) = run (applyOp c op) ops :=
  rfl

theorem run_append (a b : List Op) (c : Connection) :
    run c (a ++ b) = run (run c a) b := by
  induction a generalizing c with
  | nil => rfl
  | cons op t ih => simp [run, ih]

theorem validSeq_append (a b : List Op) (c : Connection) :
    validSeq c (a ++ b) = (validSeq c a && validSeq (run c a) b) := by
  induction a generalizing c with
  | nil => simp [validSeq, run]
  | cons op t ih => simp [validSeq, run, ih, Bool.and_assoc]

/-! ## Behaviour of a single rollback and of steps from a poisoned state -/

theorem rollback_cases (c : Connection) :
    (0 < (c.rollbackTransaction).nesting_depth →
      (c.rollbackTransaction).must_rollback = true
      ∧ (c.rollbackTransaction).trace = c.trace)
    ∧ ((c.rollbackTransaction).nesting_depth = 0 →
      (c.rollbackTransaction).trace = c.trace ++ [Stmt.ROLLBACK]
      ∧ (c.rollbackTransaction).must_rollback = false) := by
  obtain ⟨nd, mr, it, rc, rv, tr⟩ := c
  match nd with
  | 0 =>
    simp [Connection.rollbackTransaction, Connection.poison, Connection.leave,
      Connection.execStmt, Connection.clear_poison]
  | 1 =>
    simp [Connection.rollbackTransaction, Connection.poison, Connection.leave,
      Connection.execStmt, Connection.clear_poison]
  | (n + 2) =>
    simp [Connection.rollbackTransaction, Connection.poison, Connection.leave,
      Connection.execStmt, Connection.clear_poison]

theorem poison_step (c : Connection) (op : Op)
    (hmr : c.must_rollback = true) (hd : 0 < c.nesting_depth) :
    (0 < (applyOp c op).nesting_depth →
      (applyOp c op).must_rollback = true
      ∧ (applyOp c op).trace = c.trace)
    ∧ ((applyOp c op).nesting_depth = 0 →
      (applyOp c op).trace = c.trace ++ [Stmt.ROLLBACK]
      ∧ (applyOp c op).must_rollback = false) := by
  obtain ⟨nd, mr, it, rc, rv, tr⟩ := c
  subst hmr
  match op with
  | Op.opBegin e =>
    match nd with
    | 0 => exact absurd hd (by simp)
    | (n + 1) =>
      simp [applyOp, Connection.beginTransaction, Connection.is_poisoned]
  | Op.opCommit =>
    match nd with
    | 0 => exact absurd hd (by simp)
    | 1 =>
      simp [applyOp, Connection.commitTransaction, Connection.leave,
        Connection.is_poisoned, Connection.execStmt, Connection.clear_poison]
    | (n + 2) =>
      simp [applyOp, Connection.commitTransaction, Connection.leave,
        Connection.is_poisoned, Connection.execStmt, Connection.clear_poison]
  | Op.opRollback => exact rollback_cases _
  | Op.opDestroyOpen => exact rollback_cases _
  | Op.opDestroyClosed =>
    match nd with
    | 0 => exact absurd hd (by simp)
    | (n + 1) => simp [applyOp]
  | Op.opInsert =>
    match nd with
    | 0 => exact absurd hd (by simp)
    | (n + 1) =>
      simp only [applyOp, Connection.execInsert]
      constructor
      · intro _
        constructor <;> split <;> rfl
      · intro h
        revert h
        split <;> simp

theorem poison_run (ops : List Op) (c : Connection)
    (hmr : c.must_rollback = true) (hd : 0 < c.nesting_depth)
    (hmin : ∀ pre, pre <+: ops → pre ≠ ops → 0 < (run c pre).nesting_depth)
    (hclose : (run c ops).nesting_depth = 0) :
    (run c ops).trace = c.trace ++ [Stmt.ROLLBACK] := by
  induction ops generalizing c with
  | nil =>
    simp only [run] at hclose
    omega
  | cons op t ih =>
    rw [run_cons] at hclose ⊢
    by_cases h0 : (applyOp c op).nesting_depth = 0
    · have htr := (poison_step c op hmr hd).2 h0
      have ht : t = [] := by
        by_contra hne
        have hp : [op] <+: op :: t := ⟨t, rfl⟩
        have hprop : ([op] : List Op) ≠ op :: t := by
          intro he
          injection he with h1 h2
          exact hne h2.symm
        have hgt := hmin [op] hp hprop
        rw [show run c [op] = applyOp c op from rfl] at hgt
        omega
      subst ht
      simp only [run]
      exact htr.1
    · have hpos : 0 < (applyOp c op).nesting_depth := Nat.pos_of_ne_zero h0
      have hstep := (poison_step c op hmr hd).1 hpos
      have hmin2 : ∀ pre, pre <+: t → pre ≠ t →
          0 < (run (applyOp c op) pre).nesting_depth := by
        intro pre hpre hne
        have h1 : (op :: pre) <+: (op :: t) := by
          obtain ⟨s, hs⟩ := hpre
          exact ⟨s, by simp [hs]⟩
        have h2 : (op :: pre) ≠ op :: t := by
          intro he
          injection he with h3 h4
          exact hne h4
        have hgt := hmin (op :: pre) h1 h2
        rwa [run_cons] at hgt
      have hrec := ih (applyOp c op) hstep.1 hpos hmin2 hclose
      rw [hrec, hstep.2]

/-! ## Claim theorems -/

/-- C2: for every valid sequence of Begin/Commit/Rollback/destruction steps
on one connection in which some Rollback occurs while the outer transaction
is still open (depth > 0) and before the outer transaction closes, the
engine statement issued at the step that closes the outer transaction (the
first step after that Rollback bringing the depth to 0) is `ROLLBACK`, and
no `COMMIT` is issued anywhere in between: the trace grows by exactly
`[ROLLBACK]`. -/
theorem nested_rollback_forces_outer_rollback
    (ops1 rest pre : List Op)
    (hvalid : validSeq connInit (ops1 ++ Op.opRollback :: rest) = true)
    (hopen : 0 < (run connInit ops1).nesting_depth)
    (hpre : pre <+: rest)
    (hmin : ∀ q, q <+: pre → q ≠ pre →
      0 < (run connInit (ops1 ++ Op.opRollback :: q)).nesting_depth)
    (hclose : (run connInit (ops1 ++ Op.opRollback :: pre)).nesting_depth = 0) :
    (run connInit (ops1 ++ Op.opRollback :: pre)).trace
      = (run connInit ops1).trace ++ [Stmt.ROLLBACK] := by
  set c1 := run connInit ops1 with hc1
  have hrun : ∀ q : List Op, run connInit (ops1 ++ Op.opRollback :: q)
      = run (c1.rollbackTransaction) q := by
    intro q
    rw [run_append, run_cons, ← hc1]
    simp [applyOp]
  rw [hrun] at hclose ⊢
  by_cases h0 : (c1.rollbackTransaction).nesting_depth = 0
  · have htr := (rollback_cases c1).2 h0
    have hp : pre = [] := by
      by_contra hne
      have hq := hmin [] ⟨pre, rfl⟩ (Ne.symm hne)
      rw [hrun] at hq
      simp only [run] at hq
      omega
    subst hp
    simp only [run]
    exact htr.1
  · have hpos := Nat.pos_of_ne_zero h0
    have hstep := (rollback_cases c1).1 hpos
    have hmin2 : ∀ q, q <+: pre → q ≠ pre →
        0 < (run (c1.rollbackTransaction) q).nesting_depth := by
      intro q hq hne
      have hgt := hmin q hq hne
      rwa [hrun] at hgt
    have hfin := poison_run pre (c1.rollbackTransaction) hstep.1 hpos hmin2 hclose
    rw [hfin, hstep.2]

/-- Witness for C2: Begin then Rollback at depth 1; the outer transaction
closes at the Rollback itself and the final engine statement is ROLLBACK. -/
theorem nested_rollback_forces_outer_rollback_witness :
    validSeq connInit ([Op.opBegin true] ++ Op.opRollback :: []) = true
    ∧ 0 < (run connInit [Op.opBegin true]).nesting_depth
    ∧ (run connInit ([Op.opBegin true] ++ Op.opRollback :: [])).trace
        = (run connInit [Op.opBegin true]).trace ++ [Stmt.ROLLBACK] :=
  ⟨by decide, by decide,
    nested_rollback_forces_outer_rollback [Op.opBegin true] [] []
      (by decide) (by decide) ⟨[], rfl⟩
      (fun q hq hne => absurd (List.prefix_nil.mp hq) hne)
      (by decide)⟩

/-- C1 counterexample: in the `NestedRollback` scenario (outer Begin; first
inner Begin, insert, Commit; second inner Begin, insert, Rollback; third
inner Begin fails; outer handle closed), the final row count of table
`foo` after the outer transaction is closed is not 1 — the test itself
asserts `EXPECT_EQ(0, CountFoo())` at that point. -/
theorem nested_rollback_final_count_not_one :
    ¬ CountFoo (run connInit nestedRollbackOps) = 1 := by
  decide

/-- C1 (amended): in the `NestedRollback` scenario the row inserted by the
first (committed) nested transaction is visible (count = 1) after that
inner Commit while the outer transaction is still open, but after the
outer transaction is eventually closed the outer rollback discards it and
the final row count is 0. -/
theorem nested_rollback_row_counts :
    validSeq connInit nestedRollbackOps = true
    ∧ CountFoo (run connInit (nestedRollbackOps.take 4)) = 1
    ∧ CountFoo (run connInit nestedRollbackOps) = 0 := by
  decide

/-- C3: whenever the poison flag is set, Begin on a fresh handle returns
failure and leaves the whole connection state — nesting depth, poison
flag, engine trace (no statement issued) — untouched, and the handle stays
closed. -/
theorem begin_poisoned_rejected (t : Transaction) (c : Connection) (e : Bool)
    (hfresh : t.is_open = false) (hp : c.must_rollback = true) :
    Transaction.Begin t c e = ({ is_open := false }, c, false) := by
  simp [Transaction.Begin, Connection.beginTransaction, Connection.is_poisoned, hp]

/-- Witness for C3 at the poisoned state the `NestedRollback` scenario
reaches after the second inner transaction's rollback. -/
theorem begin_poisoned_rejected_witness :
    Transaction.new.is_open = false
    ∧ (run connInit [Op.opBegin true, Op.opBegin true, Op.opRollback]).must_rollback = true
    ∧ Transaction.Begin Transaction.new
        (run connInit [Op.opBegin true, Op.opBegin true, Op.opRollback]) true
      = ({ is_open := false },
         run connInit [Op.opBegin true, Op.opBegin true, Op.opRollback], false) :=
  ⟨rfl, by decide, begin_poisoned_rejected Transaction.new _ true rfl (by decide)⟩

/-- C4: the connection nesting counter over the `NestedRollback` scenario:
0 initially; 1 after the outer Begin; 2 after the first nested Begin; back
to 1 after the nested Commit; 2 then back to 1 (not 0) across the second
nested Begin/Rollback; the third nested Begin fails with the counter
staying at 1; 0 after the outer transaction is closed. -/
theorem nested_rollback_nesting_counter :
    validSeq connInit nestedRollbackOps = true
    ∧ connInit.transaction_nesting = 0
    ∧ (run connInit (nestedRollbackOps.take 1)).transaction_nesting = 1
    ∧ (run connInit (nestedRollbackOps.take 2)).transaction_nesting = 2
    ∧ (run connInit (nestedRollbackOps.take 4)).transaction_nesting = 1
    ∧ (run connInit (nestedRollbackOps.take 5)).transaction_nesting = 2
    ∧ (run connInit (nestedRollbackOps.take 7)).transaction_nesting = 1
    ∧ ((run connInit (nestedRollbackOps.take 7)).beginTransaction true).2 = false
    ∧ (run connInit (nestedRollbackOps.take 8)).transaction_nesting = 1
    ∧ (run connInit nestedRollbackOps).transaction_nesting = 0 := by
  decide

/-- C7: destroying a handle while it is open has exactly the effect of
calling Rollback() on it: the resulting connection state (nesting state,
poison flag, engine trace and rows) is the same, and the explicit path
also closes the handle. -/
theorem destructor_matches_rollback (t : Transaction) (c : Connection)
    (hopen : t.is_open = true) :
    Transaction.destroy t c = (Transaction.Rollback t c).2
    ∧ ((Transaction.Rollback t c).1).is_open = false := by
  simp [Transaction.destroy, Transaction.Rollback, hopen]

/-- Witness for C7 on an open handle over a depth-1 connection. -/
theorem destructor_matches_rollback_witness :
    ({ is_open := true } : Transaction).is_open = true
    ∧ Transaction.destroy { is_open := true } (connInit.beginTransaction true).1
        = (Transaction.Rollback { is_open := true } (connInit.beginTransaction true).1).2 :=
  ⟨rfl, (destructor_matches_rollback { is_open := true } _ rfl).1⟩

/-- C9: if the engine `BEGIN` issued by the outermost Begin fails, Begin
reports failure, the speculative `enter()` is undone so the nesting depth
is unchanged, and the handle is not open. -/
theorem failed_engine_begin_no_phantom_nesting (t : Transaction) (c : Connection)
    (hnp : c.must_rollback = false) (hd : c.nesting_depth = 0) :
    (Transaction.Begin t c false).2.2 = false
    ∧ (Transaction.Begin t c false).2.1.nesting_depth = c.nesting_depth
    ∧ (Transaction.Begin t c false).1.is_open = false := by
  simp [Transaction.Begin, Connection.beginTransaction, Connection.is_poisoned,
    Connection.enter, Connection.execStmt, Connection.leave, hnp, hd]

/-- Witness for C9 at the fresh connection. -/
theorem failed_engine_begin_no_phantom_nesting_witness :
    connInit.must_rollback = false
    ∧ connInit.nesting_depth = 0
    ∧ (Transaction.Begin Transaction.new connInit false).2.2 = false
    ∧ (Transaction.Begin Transaction.new connInit false).2.1.nesting_depth
        = connInit.nesting_depth :=
  ⟨rfl, rfl,
    (failed_engine_begin_no_phantom_nesting Transaction.new connInit rfl rfl).1,
    (failed_engine_begin_no_phantom_nesting Transaction.new connInit rfl rfl).2.1⟩

/-- C10: destroying a handle that is already closed (its Commit or Rollback
already ran, or its Begin failed) changes nothing: the connection state —
nesting depth, poison flag, engine trace — is exactly as before, so the
handle's single `leave()` is never repeated. -/
theorem destroy_closed_handle_noop (t : Transaction) (c : Connection)
    (hclosed : t.is_open = false) :
    Transaction.destroy t c = c := by
  simp [Transaction.destroy, hclosed]

/-- Witness for C10 at the state where the test's third inner handle (whose
Begin failed) is destroyed. -/
theorem destroy_closed_handle_noop_witness :
    Transaction.new.is_open = false
    ∧ Transaction.destroy Transaction.new (run connInit (nestedRollbackOps.take 8))
        = run connInit (nestedRollbackOps.take 8) :=
  ⟨rfl, destroy_closed_handle_noop Transaction.new _ rfl⟩

/-- C5: a successful Begin issues the engine `BEGIN` exactly when it brings
the depth from 0 to 1 (and otherwise issues nothing), and a Commit or
Rollback that leaves the depth above 0 issues no engine statement at all. -/
theorem engine_statement_only_at_outer_boundary (c : Connection) (e : Bool) :
    ((c.beginTransaction e).2 = true →
      (c.beginTransaction e).1.nesting_depth = c.nesting_depth + 1
      ∧ (c.nesting_depth = 0 →
          (c.beginTransaction e).1.trace = c.trace ++ [Stmt.BEGIN])
      ∧ (0 < c.nesting_depth → (c.beginTransaction e).1.trace = c.trace))
    ∧ (0 < (c.commitTransaction).1.nesting_depth →
        (c.commitTransaction).1.trace = c.trace)
    ∧ (0 < (c.rollbackTransaction).nesting_depth →
        (c.rollbackTransaction).trace = c.trace) := by
  obtain ⟨nd, mr, it, rc, rv, tr⟩ := c
  refine ⟨?_, ?_, fun h => ((rollback_cases _).1 h).2⟩
  · cases nd <;> cases mr <;> cases e <;>
      simp [Connection.beginTransaction, Connection.is_poisoned, Connection.enter,
        Connection.execStmt, Connection.leave]
  · match nd, mr with
    | 0, true =>
      simp [Connection.commitTransaction, Connection.leave, Connection.is_poisoned,
        Connection.execStmt, Connection.clear_poison]
    | 0, false =>
      simp [Connection.commitTransaction, Connection.leave, Connection.is_poisoned,
        Connection.execStmt, Connection.clear_poison]
    | 1, true =>
      simp [Connection.commitTransaction, Connection.leave, Connection.is_poisoned,
        Connection.execStmt, Connection.clear_poison]
    | 1, false =>
      simp [Connection.commitTransaction, Connection.leave, Connection.is_poisoned,
        Connection.execStmt, Connection.clear_poison]
    | (n + 2), m =>
      simp [Connection.commitTransaction, Connection.leave, Connection.is_poisoned,
        Connection.execStmt, Connection.clear_poison]

/-- Witness for C5: the outermost Begin on the fresh connection issues
`BEGIN`; a nested Begin and a nested Commit issue nothing. -/
theorem engine_statement_only_at_outer_boundary_witness :
    (connInit.beginTransaction true).2 = true
    ∧ connInit.nesting_depth = 0
    ∧ (connInit.beginTransaction true).1.trace = connInit.trace ++ [Stmt.BEGIN] :=
  ⟨by decide, rfl,
    ((engine_statement_only_at_outer_boundary connInit true).1 (by decide)).2.1 rfl⟩

/-- C6: when Commit on an open handle brings the depth from 1 to 0, a
poisoned state receives a real `ROLLBACK` (never `COMMIT`) and the poison
flag is cleared, while an unpoisoned state receives a real `COMMIT` and
the visible rows become durable. -/
theorem outer_commit_poisoned_downgrade (t : Transaction) (c : Connection)
    (hopen : t.is_open = true) (hd : c.nesting_depth = 1) :
    (c.must_rollback = true →
      (Transaction.Commit t c).2.1.trace = c.trace ++ [Stmt.ROLLBACK]
      ∧ (Transaction.Commit t c).2.1.must_rollback = false)
    ∧ (c.must_rollback = false →
      (Transaction.Commit t c).2.1.trace = c.trace ++ [Stmt.COMMIT]
      ∧ (Transaction.Commit t c).2.1.rows_committed = c.rows_visible) := by
  refine ⟨fun hmr => ?_, fun hmr => ?_⟩ <;>
    simp [Transaction.Commit, Connection.commitTransaction, Connection.leave,
      Connection.is_poisoned, Connection.execStmt, Connection.clear_poison, hd, hmr]

/-- Witness for C6 on the poisoned depth-1 state the scenario reaches after
a nested rollback: the closing Commit issues `ROLLBACK`. -/
theorem outer_commit_poisoned_downgrade_witness :
    ({ is_open := true } : Transaction).is_open = true
    ∧ (run connInit [Op.opBegin true, Op.opBegin true, Op.opRollback]).nesting_depth = 1
    ∧ (run connInit [Op.opBegin true, Op.opBegin true, Op.opRollback]).must_rollback = true
    ∧ (Transaction.Commit { is_open := true }
        (run connInit [Op.opBegin true, Op.opBegin true, Op.opRollback])).2.1.trace
      = (run connInit [Op.opBegin true, Op.opBegin true, Op.opRollback]).trace
          ++ [Stmt.ROLLBACK] :=
  ⟨rfl, by decide, by decide,
    ((outer_commit_poisoned_downgrade { is_open := true } _ rfl (by decide)).1
      (by decide)).1⟩

/-! ## The depth-zero / poison invariant -/

theorem inv_step (c : Connection) (op : Op)
    (hinv : c.nesting_depth = 0 → c.must_rollback = false) :
    (applyOp c op).nesting_depth = 0 → (applyOp c op).must_rollback = false := by
  obtain ⟨nd, mr, it, rc, rv, tr⟩ := c
  match op with
  | Op.opBegin e =>
    match nd, mr, e with
    | 0, true, _ => exact fun h => hinv rfl
    | 0, false, true =>
      simp [applyOp, Connection.beginTransaction, Connection.is_poisoned,
        Connection.enter, Connection.execStmt, Connection.leave]
    | 0, false, false =>
      simp [applyOp, Connection.beginTransaction, Connection.is_poisoned,
        Connection.enter, Connection.execStmt, Connection.leave]
    | (n + 1), true, _ => exact fun h => hinv h
    | (n + 1), false, _ =>
      simp [applyOp, Connection.beginTransaction, Connection.is_poisoned,
        Connection.enter, Connection.execStmt, Connection.leave]
  | Op.opCommit =>
    match nd, mr with
    | 0, true =>
      simp [applyOp, Connection.commitTransaction, Connection.leave,
        Connection.is_poisoned, Connection.execStmt, Connection.clear_poison]
    | 0, false =>
      simp [applyOp, Connection.commitTransaction, Connection.leave,
        Connection.is_poisoned, Connection.execStmt, Connection.clear_poison]
    | 1, true =>
      simp [applyOp, Connection.commitTransaction, Connection.leave,
        Connection.is_poisoned, Connection.execStmt, Connection.clear_poison]
    | 1, false =>
      simp [applyOp, Connection.commitTransaction, Connection.leave,
        Connection.is_poisoned, Connection.execStmt, Connection.clear_poison]
    | (n + 2), m =>
      simp [applyOp, Connection.commitTransaction, Connection.leave,
        Connection.is_poisoned, Connection.execStmt, Connection.clear_poison]
  | Op.opRollback => exact fun h => ((rollback_cases _).2 h).2
  | Op.opDestroyOpen => exact fun h => ((rollback_cases _).2 h).2
  | Op.opDestroyClosed => exact hinv
  | Op.opInsert =>
    simp only [applyOp, Connection.execInsert]
    split <;> exact hinv

theorem inv_run (ops : List Op) (c : Connection)
    (hinv : c.nesting_depth = 0 → c.must_rollback = false)
    (hv : validSeq c ops = true) :
    (run c ops).nesting_depth = 0 → (run c ops).must_rollback = false := by
  induction ops generalizing c with
  | nil => exact hinv
  | cons op t ih =>
    rw [run_cons]
    simp only [validSeq, Bool.and_eq_true] at hv
    exact ih (applyOp c op) (inv_step c op hinv) hv.2

/-- C8: in every state reachable by a valid sequence of
Begin/Commit/Rollback/destruction steps, `must_rollback` is false whenever
`nesting_depth` is 0; and from any poisoned state with positive depth, one
step keeps the poison flag set while the depth stays positive and clears
it exactly when the depth reaches 0. -/
theorem poison_cleared_at_depth_zero :
    (∀ ops : List Op, validSeq connInit ops = true →
      (run connInit ops).nesting_depth = 0 →
      (run connInit ops).must_rollback = false)
    ∧ (∀ (c : Connection) (op : Op), c.must_rollback = true →
        0 < c.nesting_depth → validOp c op = true →
        (0 < (applyOp c op).nesting_depth → (applyOp c op).must_rollback = true)
        ∧ ((applyOp c op).nesting_depth = 0 → (applyOp c op).must_rollback = false)) := by
  constructor
  · intro ops hv
    exact inv_run ops connInit (fun _ => rfl) hv
  · intro c op hmr hd _
    exact ⟨fun hpos => ((poison_step c op hmr hd).1 hpos).1,
      fun h0 => ((poison_step c op hmr hd).2 h0).2⟩

/-- Witness for C8 on the full `NestedRollback` scenario and on one
poison-clearing step. -/
theorem poison_cleared_at_depth_zero_witness :
    validSeq connInit nestedRollbackOps = true
    ∧ (run connInit nestedRollbackOps).nesting_depth = 0
    ∧ (run connInit nestedRollbackOps).must_rollback = false :=
  ⟨by decide, by decide,
    (poison_cleared_at_depth_zero).1 nestedRollbackOps (by decide) (by decide)⟩
